import Mathlib

/-!
Verification of the local real-time connection manager of the `ep_clubhouse`
bridge (`src/bridge/mqtt_client.py`, `src/bridge/discovery.py`).

Python dictionaries are embedded as association lists over `String` keys with
Python `dict` semantics: assignment overwrites, `pop` removes, `in` tests
membership.  JSON payloads are embedded as the inductive `JVal`.  Threading
events are embedded by their observable flag (`Bool`: has `set()` been
called).  Concurrency is sequentialized: the inbound messages processed while
a caller blocks inside `send_command` are passed to the embedding as an
explicit list, each handled by the same reply-resolution function the source
runs (`_handle_command_reply`).
-/

namespace YarboBridge

/-- Lookup in an association list, Python `d.get(k)` / `d[k]`. -/
def lookupA {α : Type} : List (String × α) → String → Option α
  | [], _ => none
  | (k, v) :: rest, key => if k = key then some v else lookupA rest key

/-- Remove every binding of a key, Python `d.pop(k, None)` (dicts built by
`insertA` hold at most one binding per key). -/
def eraseA {α : Type} : List (String × α) → String → List (String × α)
  | [], _ => []
  | (k, v) :: rest, key =>
      if k = key then eraseA rest key else (k, v) :: eraseA rest key

/-- Overwriting insertion, Python `d[k] = v`. -/
def insertA {α : Type} (m : List (String × α)) (k : String) (v : α) :
    List (String × α) :=
  (k, v) :: eraseA m k

/-- Membership test, Python `k in d`. -/
def containsA {α : Type} (m : List (String × α)) (k : String) : Bool :=
  (lookupA m k).isSome

@[simp] theorem lookupA_nil {α : Type} (k : String) :
    lookupA ([] : List (String × α)) k = none := rfl

@[simp] theorem lookupA_cons {α : Type} (k key : String) (v : α)
    (rest : List (String × α)) :
    lookupA ((k, v) :: rest) key =
      if k = key then some v else lookupA rest key := rfl

@[simp] theorem lookupA_eraseA_self {α : Type} (m : List (String × α))
    (k : String) : lookupA (eraseA m k) k = none := by
  induction m with
  | nil => rfl
  | cons hd tl ih =>
      obtain ⟨k', v⟩ := hd
      by_cases h : k' = k <;> simp [eraseA, h, ih]

theorem lookupA_eraseA_ne {α : Type} (m : List (String × α))
    (k k' : String) (h : k' ≠ k) :
    lookupA (eraseA m k) k' = lookupA m k' := by
  have h' : k ≠ k' := Ne.symm h
  induction m with
  | nil => rfl
  | cons hd tl ih =>
      obtain ⟨k₀, v⟩ := hd
      by_cases h0 : k₀ = k
      · subst h0
        simp [eraseA, h', ih]
      · by_cases h1 : k₀ = k' <;> simp [eraseA, h0, h1, h, h', ih]

@[simp] theorem lookupA_insertA_self {α : Type} (m : List (String × α))
    (k : String) (v : α) : lookupA (insertA m k v) k = some v := by
  simp [insertA]

theorem lookupA_insertA_ne {α : Type} (m : List (String × α))
    (k k' : String) (v : α) (h : k' ≠ k) :
    lookupA (insertA m k v) k' = lookupA m k' := by
  have h' : k ≠ k' := Ne.symm h
  simp [insertA, h', lookupA_eraseA_ne m k k' h]

/-- JSON values, the decoded MQTT payloads (`json.loads` output). -/
inductive JVal where
  | null : JVal
  | bool : Bool → JVal
  | num : Int → JVal
  | str : String → JVal
  | arr : List JVal → JVal
  | obj : List (String × JVal) → JVal
deriving Repr

/-- `data.get("req_id")` followed by the truthiness test `if req_id and ...`:
the correlation id of an inbound message.  A missing, non-string or empty
(falsy) `req_id` can never match a registered key (keys are non-empty uuid
hex strings), which the source reaches through `req_id and req_id in dict`;
the embedding returns `none` for those observably equivalent cases. -/
def reqIdOf (data : JVal) : Option String :=
  match data with
  | JVal.obj fields =>
      match lookupA fields "req_id" with
      | some (JVal.str s) => if s = "" then none else some s
      | _ => none
  | _ => none

/-- The client state touched by command correlation
(`YarboMQTTClient.__init__`): whether a paho client object exists, the
`_connected` flag, `_command_responses` (req_id → response) and
`_response_events` (req_id → event, embedded as its set-flag). -/
structure CState where
  hasClient : Bool
  connected : Bool
  responses : List (String × JVal)
  events : List (String × Bool)
deriving Repr

/-- `YarboMQTTClient._handle_command_reply` (mqtt_client.py lines 449-453):
if the reply carries a truthy `req_id` registered in `_response_events`,
store the reply in `_command_responses[req_id]` and `set()` that event;
otherwise do nothing. -/
def handle_command_reply (st : CState) (data : JVal) : CState :=
  match reqIdOf data with
  | some rid =>
      if containsA st.events rid then
        { st with
          responses := insertA st.responses rid data,
          events := insertA st.events rid true }
      else st
  | none => st

/-- Outcome of `send_command`: `ConnectionError`, `RuntimeError` on a failed
publish, or a normal return.  Each constructor carries the client state as
the call leaves it (and, where the caller's payload dict was touched, the
payload as the caller sees it afterwards). -/
inductive SendResult where
  | notConnected (st : CState)
  | publishFailed (st : CState) (payload : List (String × JVal))
  | ok (reply : Option JVal) (st : CState) (payload : List (String × JVal))
deriving Repr

/-- `YarboMQTTClient.send_command` (mqtt_client.py lines 591-633).
`reqId` stands for the fresh `uuid.uuid4().hex[:12]`, `publishRc` for
`result.rc` of the paho publish, and `replies` for the inbound reply
messages the network thread hands to `_handle_command_reply` while the
caller is blocked in `wait` (empty when none arrive before the timeout). -/
def send_command (st : CState) (payload? : Option (List (String × JVal)))
    (wait : Bool) (reqId : String) (publishRc : Nat)
    (replies : List JVal) : SendResult :=
  if !st.hasClient || !st.connected then
    SendResult.notConnected st
  else
    let payload0 := payload?.getD []
    let payload :=
      if wait then insertA payload0 "req_id" (JVal.str reqId) else payload0
    let st1 :=
      if wait then { st with events := insertA st.events reqId false } else st
    if publishRc ≠ 0 then
      SendResult.publishFailed
        (if wait then { st1 with events := eraseA st1.events reqId } else st1)
        payload
    else if wait then
      let st2 := replies.foldl handle_command_reply st1
      SendResult.ok (lookupA st2.responses reqId)
        { st2 with
          events := eraseA st2.events reqId,
          responses := eraseA st2.responses reqId }
        payload
    else
      SendResult.ok none st1 payload

/-- The two-byte gzip magic `\x1f\x8b` tested by `_decompress`. -/
def gzipMagic : List Nat := [0x1f, 0x8b]

/-- The `try` body of `_decompress` (mqtt_client.py lines 259-264): gzip
decompression when the payload starts with the gzip magic, zlib
decompression otherwise.  `gunzip` and `inflate` stand for the library
calls `gzip.GzipFile(...).read()` and `zlib.decompress`, `Except.error`
for a raised exception. -/
def tryDecompress (gunzip inflate : List Nat → Except Unit (List Nat))
    (payload : List Nat) : Except Unit (List Nat) :=
  if payload.take 2 = gzipMagic then gunzip payload else inflate payload

/-- `YarboMQTTClient._decompress` (mqtt_client.py lines 256-266): run the
try body; any raised exception is caught and the raw payload returned
unchanged. -/
def decompress (gunzip inflate : List Nat → Except Unit (List Nat))
    (payload : List Nat) : List Nat :=
  match tryDecompress gunzip inflate payload with
  | Except.ok r => r
  | Except.error _ => payload

/-- One breadcrumb sample `{"x": ..., "y": ..., "ts": ...}` (coordinates
held opaquely; the trail logic never computes on them). -/
structure TrailPoint where
  x : Int
  y : Int
  ts : Int
deriving Repr, DecidableEq

/-- `self._max_trail_points` (mqtt_client.py line 104). -/
def maxTrailPoints : Nat := 2000

/-- The breadcrumb state: `_trail_active` and `_trail`. -/
structure TrailState where
  active : Bool
  trail : List TrailPoint
deriving Repr, DecidableEq

/-- The append-and-trim step run per position sample while the trail is
active (mqtt_client.py lines 430-436): `trail.append(pt)` then, when the
length exceeds `_max_trail_points`, keep the last `_max_trail_points`
entries (`trail[-max:]`). -/
def trailAppend (trail : List TrailPoint) (p : TrailPoint) :
    List TrailPoint :=
  let t := trail ++ [p]
  if t.length > maxTrailPoints then t.drop (t.length - maxTrailPoints) else t

/-- The breadcrumb-trail portion of the `get_device_msg` branch of
`_handle_data_feedback` (mqtt_client.py lines 414-436): job-activation
transitions on `StateMSG.on_going_planning` first (false→true clears the
trail and activates it, true→false deactivates it), then, if the trail is
active, append the `CombinedOdom` sample when one with both coordinates
is present. -/
def handleDeviceMsgTrail (st : TrailState) (isPlanning : Bool)
    (odom : Option TrailPoint) : TrailState :=
  let st1 :=
    if isPlanning && !st.active then { active := true, trail := [] }
    else if !isPlanning && st.active then { st with active := false }
    else st
  if st1.active then
    match odom with
    | some p => { st1 with trail := trailAppend st1.trail p }
    | none => st1
  else st1

/-- `YarboMQTTClient.clear_trail` (mqtt_client.py lines 706-709). -/
def clear_trail (st : TrailState) : TrailState :=
  { st with trail := [] }

/-- What a run of `discover_robot` did: its return value, the addresses it
persisted with `save_cached_ip` (in order), and which of the fallback
steps ran. -/
structure DiscoveryRun where
  result : Option String
  saved : List String
  cachedProbed : Bool
  scanInvoked : Bool
deriving Repr, DecidableEq

/-- `discover_robot` (discovery.py lines 131-182).  `probe` stands for
`_probe_port` on the fixed port, `cached` for `load_cached_ip()`,
`subnet?` for `subnet or _get_local_subnet()` and `scanOf` for
`_scan_subnet`.  Step 1 probes a non-empty configured address and on
success persists and returns it; step 2 probes the cached address when it
exists and differs from the configured one, returning it on success
without persisting; step 3 scans the subnet when one is known, persisting
and returning the first hit. -/
def discover_robot (probe : String → Bool) (scanOf : String → Option String)
    (configured : String) (cached : Option String)
    (subnet? : Option String) : DiscoveryRun :=
  if configured ≠ "" && probe configured then
    { result := some configured, saved := [configured],
      cachedProbed := false, scanInvoked := false }
  else
    let cachedProbed :=
      match cached with
      | some c => decide (c ≠ configured)
      | none => false
    let cachedHit :=
      match cached with
      | some c => if c ≠ configured && probe c then some c else none
      | none => none
    match cachedHit with
    | some c =>
        { result := some c, saved := [], cachedProbed := cachedProbed,
          scanInvoked := false }
    | none =>
        match subnet? with
        | none =>
            { result := none, saved := [], cachedProbed := cachedProbed,
              scanInvoked := false }
        | some sn =>
            match scanOf sn with
            | some found =>
                { result := some found, saved := [found],
                  cachedProbed := cachedProbed, scanInvoked := true }
            | none =>
                { result := none, saved := [],
                  cachedProbed := cachedProbed, scanInvoked := true }

/-- The reconnection-supervisor counters: `_disconnect_count` and the
`_connected` flag. -/
structure ReconnState where
  disconnectCount : Nat
  connected : Bool
deriving Repr, DecidableEq

/-- `YarboMQTTClient._on_disconnect` (mqtt_client.py lines 237-252):
increment `_disconnect_count`, clear the connected flag, and call
`_try_rediscovery` when the count equals 3 or (past the first branches)
is a multiple of 10.  The returned `Bool` records whether
`_try_rediscovery` was invoked. -/
def on_disconnect (st : ReconnState) : ReconnState × Bool :=
  let c := st.disconnectCount + 1
  let st' : ReconnState := { disconnectCount := c, connected := false }
  if c ≤ 1 then (st', false)
  else if c = 3 then (st', true)
  else if c % 10 = 0 then (st', true)
  else (st', false)

/-- `YarboMQTTClient._on_connect` (mqtt_client.py lines 211-234) restricted
to the counters: reason code 0 sets the connected flag and resets
`_disconnect_count` to zero; any other reason code clears the flag. -/
def on_connect (st : ReconnState) (reasonCode : Nat) : ReconnState :=
  if reasonCode = 0 then { disconnectCount := 0, connected := true }
  else { st with connected := false }

/-- Run `n` consecutive disconnect events, counting how many of them
invoked `_try_rediscovery`. -/
def runDisconnects : ReconnState → Nat → ReconnState × Nat
  | st, 0 => (st, 0)
  | st, n + 1 =>
      let (st1, trig) := on_disconnect st
      let (st2, k) := runDisconnects st1 n
      (st2, (if trig then 1 else 0) + k)

/-- The heartbeat `working_state` map (mqtt_client.py lines 293-295):
`state_map.get(ws_code, "unknown")`. -/
def heartbeat_state_map (code : Nat) : String :=
  match code with
  | 0 => "standby"
  | 1 => "idle"
  | 2 => "working"
  | 3 => "charging"
  | 4 => "docking"
  | 5 => "error"
  | 6 => "returning"
  | 7 => "paused"
  | _ => "unknown"

/-- `YarboMQTTClient._decode_state` (mqtt_client.py lines 711-717), the
map used by the `runningStatus` data-feedback branch:
`states.get(code, "unknown_%s" % code)`. -/
def decode_state (code : Nat) : String :=
  match code with
  | 0 => "idle"
  | 1 => "working"
  | 2 => "paused"
  | 3 => "charging"
  | 4 => "error"
  | 5 => "docking"
  | 6 => "returning"
  | _ => "unknown_" ++ toString code

/-- C1 — Correlation uniqueness: a reply carrying a registered `req_id` is
delivered only to that pending request — it sets that entry's response
slot, releases (sets) that entry's event, and leaves every other key of
the pending-request table and the response table untouched; a reply whose
`req_id` is absent (or falsy) or matches no registered pending request
changes nothing. -/
theorem correlation_unique_delivery (st : CState) (data : JVal) :
    (∀ rid, reqIdOf data = some rid → containsA st.events rid = true →
        lookupA (handle_command_reply st data).responses rid = some data
      ∧ lookupA (handle_command_reply st data).events rid = some true
      ∧ (∀ k, k ≠ rid →
            lookupA (handle_command_reply st data).responses k
              = lookupA st.responses k
          ∧ lookupA (handle_command_reply st data).events k
              = lookupA st.events k))
  ∧ (reqIdOf data = none → handle_command_reply st data = st)
  ∧ (∀ rid, reqIdOf data = some rid → containsA st.events rid = false →
        handle_command_reply st data = st) := by
  refine ⟨?_, ?_, ?_⟩
  · intro rid hrid hmem
    have hstep : handle_command_reply st data =
        { st with
          responses := insertA st.responses rid data,
          events := insertA st.events rid true } := by
      simp [handle_command_reply, hrid, hmem]
    rw [hstep]
    refine ⟨lookupA_insertA_self _ _ _, lookupA_insertA_self _ _ _, ?_⟩
    intro k hk
    exact ⟨lookupA_insertA_ne _ _ _ _ hk, lookupA_insertA_ne _ _ _ _ hk⟩
  · intro hnone
    simp [handle_command_reply, hnone]
  · intro rid hrid hmem
    simp [handle_command_reply, hrid, hmem]

/-- Witness for C1 at a concrete state and reply. -/
theorem correlation_unique_delivery_witness :
    lookupA (handle_command_reply
        ⟨true, true, [], [("abc123", false), ("other0", false)]⟩
        (JVal.obj [("req_id", JVal.str "abc123")])).events "abc123"
      = some true
  ∧ lookupA (handle_command_reply
        ⟨true, true, [], [("abc123", false), ("other0", false)]⟩
        (JVal.obj [("req_id", JVal.str "abc123")])).events "other0"
      = some false := by
  have h := correlation_unique_delivery
    ⟨true, true, [], [("abc123", false), ("other0", false)]⟩
    (JVal.obj [("req_id", JVal.str "abc123")])
  have h1 := h.1 "abc123" (by decide) (by decide)
  refine ⟨h1.2.1, ?_⟩
  have h2 := (h1.2.2 "other0" (by decide)).2
  rw [h2]
  decide

/-- C4 — Decompression totality and fallback: the decode step is a total
function on byte strings (every library exception is caught); a payload
whose two leading bytes are `0x1f 0x8b` goes through the gzip path,
any other payload through the zlib path, and when the attempted path
raises, the raw bytes are returned unchanged. -/
theorem decompress_total_fallback
    (gunzip inflate : List Nat → Except Unit (List Nat))
    (payload : List Nat) :
    (∀ r, payload.take 2 = gzipMagic → gunzip payload = Except.ok r →
        decompress gunzip inflate payload = r)
  ∧ (payload.take 2 = gzipMagic → gunzip payload = Except.error () →
        decompress gunzip inflate payload = payload)
  ∧ (∀ r, payload.take 2 ≠ gzipMagic → inflate payload = Except.ok r →
        decompress gunzip inflate payload = r)
  ∧ (payload.take 2 ≠ gzipMagic → inflate payload = Except.error () →
        decompress gunzip inflate payload = payload) := by
  refine ⟨?_, ?_, ?_, ?_⟩
  · intro r hmagic hok
    simp [decompress, tryDecompress, hmagic, hok]
  · intro hmagic herr
    simp [decompress, tryDecompress, hmagic, herr]
  · intro r hmagic hok
    simp [decompress, tryDecompress, hmagic, hok]
  · intro hmagic herr
    simp [decompress, tryDecompress, hmagic, herr]

/-- Witness for C4: a gzip-magic payload whose gzip decode succeeds, and a
non-magic payload where zlib decode fails and the raw bytes come back. -/
theorem decompress_total_fallback_witness :
    decompress (fun _ => Except.ok [7, 7]) (fun _ => Except.error ())
        [0x1f, 0x8b, 3] = [7, 7]
  ∧ decompress (fun _ => Except.error ()) (fun _ => Except.error ())
        [9, 9] = [9, 9] := by
  constructor
  · exact (decompress_total_fallback (fun _ => Except.ok [7, 7])
      (fun _ => Except.error ()) [0x1f, 0x8b, 3]).1 [7, 7] (by decide) rfl
  · exact (decompress_total_fallback (fun _ => Except.error ())
      (fun _ => Except.error ()) [9, 9]).2.2.2 (by decide) rfl

/-- Did the call raise (`ConnectionError` or `RuntimeError`)? -/
def SendResult.raised : SendResult → Bool
  | SendResult.notConnected _ => true
  | SendResult.publishFailed _ _ => true
  | SendResult.ok _ _ _ => false

/-- Did the call raise `ConnectionError`? -/
def SendResult.isConnErr : SendResult → Bool
  | SendResult.notConnected _ => true
  | _ => false

/-- Did the call raise `RuntimeError` (publish failure)? -/
def SendResult.isPublishErr : SendResult → Bool
  | SendResult.publishFailed _ _ => true
  | _ => false

/-- The client state as the call leaves it. -/
def SendResult.finalState : SendResult → CState
  | SendResult.notConnected st => st
  | SendResult.publishFailed st _ => st
  | SendResult.ok _ st _ => st

/-- The value a normal return hands the caller (`none` on an error). -/
def SendResult.replyOf : SendResult → Option JVal
  | SendResult.ok r _ _ => r
  | _ => none

/-- The caller's payload dict as the call leaves it (`[]` when the guard
raised before the payload was touched). -/
def SendResult.payloadOf : SendResult → List (String × JVal)
  | SendResult.notConnected _ => []
  | SendResult.publishFailed _ p => p
  | SendResult.ok _ _ p => p

theorem send_command_eq_notConnected (st : CState)
    (payload? : Option (List (String × JVal))) (wait : Bool) (reqId : String)
    (publishRc : Nat) (replies : List JVal)
    (h : st.connected = false ∨ st.hasClient = false) :
    send_command st payload? wait reqId publishRc replies
      = SendResult.notConnected st := by
  rcases h with h | h <;> simp [send_command, h]

theorem send_command_eq_ok (st : CState)
    (payload? : Option (List (String × JVal))) (reqId : String)
    (replies : List JVal)
    (hcli : st.hasClient = true) (hcon : st.connected = true) :
    send_command st payload? true reqId 0 replies =
      SendResult.ok
        (lookupA (List.foldl handle_command_reply
            { st with events := insertA st.events reqId false }
            replies).responses reqId)
        { List.foldl handle_command_reply
            { st with events := insertA st.events reqId false } replies with
          events := eraseA (List.foldl handle_command_reply
            { st with events := insertA st.events reqId false }
            replies).events reqId,
          responses := eraseA (List.foldl handle_command_reply
            { st with events := insertA st.events reqId false }
            replies).responses reqId }
        (insertA (payload?.getD []) "req_id" (JVal.str reqId)) := by
  simp [send_command, hcli, hcon]

theorem send_command_eq_publishFailed (st : CState)
    (payload? : Option (List (String × JVal))) (reqId : String)
    (publishRc : Nat) (replies : List JVal)
    (hcli : st.hasClient = true) (hcon : st.connected = true)
    (hrc : publishRc ≠ 0) :
    send_command st payload? true reqId publishRc replies =
      SendResult.publishFailed
        { st with events := eraseA (insertA st.events reqId false) reqId }
        (insertA (payload?.getD []) "req_id" (JVal.str reqId)) := by
  simp [send_command, hcli, hcon, hrc]

theorem send_command_eq_ok_nowait (st : CState)
    (payload? : Option (List (String × JVal))) (reqId : String)
    (replies : List JVal)
    (hcli : st.hasClient = true) (hcon : st.connected = true) :
    send_command st payload? false reqId 0 replies =
      SendResult.ok none st (payload?.getD []) := by
  simp [send_command, hcli, hcon]

theorem send_command_eq_publishFailed_nowait (st : CState)
    (payload? : Option (List (String × JVal))) (reqId : String)
    (publishRc : Nat) (replies : List JVal)
    (hcli : st.hasClient = true) (hcon : st.connected = true)
    (hrc : publishRc ≠ 0) :
    send_command st payload? false reqId publishRc replies =
      SendResult.publishFailed st (payload?.getD []) := by
  simp [send_command, hcli, hcon, hrc]

/-- During the blocked wait, `_handle_command_reply` never creates a
response-table entry for a correlation id none of the processed replies
carries. -/
theorem lookupA_foldl_handle_none (replies : List JVal) (st : CState)
    (rid : String) (h0 : lookupA st.responses rid = none)
    (hno : ∀ d ∈ replies, reqIdOf d ≠ some rid) :
    lookupA (List.foldl handle_command_reply st replies).responses rid
      = none := by
  induction replies generalizing st with
  | nil => exact h0
  | cons d rest ih =>
      simp only [List.foldl_cons]
      apply ih
      · cases hr : reqIdOf d with
        | none => simpa [handle_command_reply, hr] using h0
        | some r =>
            by_cases hm : containsA st.events r = true
            · have hne : rid ≠ r := by
                intro he
                exact hno d (List.mem_cons_self d rest) (by rw [hr, he])
              have hresp : (handle_command_reply st d).responses
                  = insertA st.responses r d := by
                simp [handle_command_reply, hr, hm]
              rw [hresp, lookupA_insertA_ne _ _ _ _ hne]
              exact h0
            · have hid : handle_command_reply st d = st := by
                simp [handle_command_reply, hr, hm]
              rw [hid]
              exact h0
      · intro d' hd'
        exact hno d' (List.mem_cons_of_mem d hd')

/-- C2 — Timeout yields `None`, not an exception: a waiting `send_command`
whose correlation id is fresh and receives no matching reply before the
wait elapses raises nothing, returns `None`, and leaves no
pending-request entry (event or response slot) behind for that id. -/
theorem timeout_returns_none (st : CState)
    (payload? : Option (List (String × JVal))) (reqId : String)
    (replies : List JVal)
    (hcli : st.hasClient = true) (hcon : st.connected = true)
    (hfresh : lookupA st.responses reqId = none)
    (hnomatch : ∀ d ∈ replies, reqIdOf d ≠ some reqId) :
    (send_command st payload? true reqId 0 replies).raised = false
  ∧ (send_command st payload? true reqId 0 replies).replyOf = none
  ∧ lookupA (send_command st payload? true reqId 0
        replies).finalState.events reqId = none
  ∧ lookupA (send_command st payload? true reqId 0
        replies).finalState.responses reqId = none := by
  rw [send_command_eq_ok st payload? reqId replies hcli hcon]
  have hnone : lookupA (List.foldl handle_command_reply
      { st with events := insertA st.events reqId false }
      replies).responses reqId = none :=
    lookupA_foldl_handle_none replies _ reqId hfresh hnomatch
  exact ⟨rfl, by simpa [SendResult.replyOf] using hnone,
    by simp [SendResult.finalState],
    by simp [SendResult.finalState]⟩

/-- Witness for C2 at a concrete call: connected client, fresh id, no
inbound replies during the wait. -/
theorem timeout_returns_none_witness :
    (send_command ⟨true, true, [], []⟩ none true "r4aa" 0 []).raised = false
  ∧ (send_command ⟨true, true, [], []⟩ none true "r4aa" 0 []).replyOf = none
  ∧ lookupA (send_command ⟨true, true, [], []⟩ none true "r4aa" 0
        []).finalState.events "r4aa" = none
  ∧ lookupA (send_command ⟨true, true, [], []⟩ none true "r4aa" 0
        []).finalState.responses "r4aa" = none :=
  timeout_returns_none ⟨true, true, [], []⟩ none "r4aa" [] rfl rfl rfl
    (by simp)

/-- C3 — Command-send failure modes and cleanup: under the session
invariant that the connected flag implies a live client object,
`send_command` raises `ConnectionError` exactly when the session is not
connected, and then changes no state (the state it leaves is the input
state, with no pending request registered); when connected and the
publish reports a non-zero result code it raises the transport error,
having removed the just-registered pending entry, the response table
untouched. -/
theorem send_failure_modes (st : CState)
    (payload? : Option (List (String × JVal))) (wait : Bool) (reqId : String)
    (publishRc : Nat) (replies : List JVal)
    (hinv : st.connected = true → st.hasClient = true) :
    ((send_command st payload? wait reqId publishRc replies).isConnErr = true
        ↔ st.connected = false)
  ∧ (st.connected = false →
      send_command st payload? wait reqId publishRc replies
        = SendResult.notConnected st)
  ∧ (st.connected = true → publishRc ≠ 0 →
        (send_command st payload? true reqId publishRc replies).isPublishErr
          = true
      ∧ lookupA (send_command st payload? true reqId publishRc
            replies).finalState.events reqId = none
      ∧ (send_command st payload? true reqId publishRc
            replies).finalState.responses = st.responses
      ∧ (send_command st payload? true reqId publishRc
            replies).finalState.connected = st.connected) := by
  refine ⟨⟨?_, ?_⟩, ?_, ?_⟩
  · intro h
    cases hc : st.connected
    · rfl
    · exfalso
      have hcli := hinv hc
      cases hrc : decide (publishRc ≠ 0) with
      | true =>
          cases wait
          · rw [send_command_eq_publishFailed_nowait st payload? reqId
              publishRc replies hcli hc (of_decide_eq_true hrc)] at h
            simp [SendResult.isConnErr] at h
          · rw [send_command_eq_publishFailed st payload? reqId
              publishRc replies hcli hc (of_decide_eq_true hrc)] at h
            simp [SendResult.isConnErr] at h
      | false =>
          have hrc0 : publishRc = 0 := by
            have := of_decide_eq_false hrc
            omega
          subst hrc0
          cases wait
          · rw [send_command_eq_ok_nowait st payload? reqId replies hcli hc]
              at h
            simp [SendResult.isConnErr] at h
          · rw [send_command_eq_ok st payload? reqId replies hcli hc] at h
            simp [SendResult.isConnErr] at h
  · intro h
    rw [send_command_eq_notConnected st payload? wait reqId publishRc replies
      (Or.inl h)]
    rfl
  · intro h
    rw [send_command_eq_notConnected st payload? wait reqId publishRc replies
      (Or.inl h)]
  · intro hc hrc
    have hcli := hinv hc
    rw [send_command_eq_publishFailed st payload? reqId publishRc replies
      hcli hc hrc]
    refine ⟨rfl, ?_, rfl, rfl⟩
    simp [SendResult.finalState]

/-- Witness for C3: a disconnected session raises the connection error; a
connected one with a failing publish raises the transport error with the
pending entry cleaned up. -/
theorem send_failure_modes_witness :
    (send_command ⟨true, false, [], []⟩ none true "r9bb" 0 []).isConnErr
      = true
  ∧ (send_command ⟨true, true, [], []⟩ none true "r9bb" 1 []).isPublishErr
      = true
  ∧ lookupA (send_command ⟨true, true, [], []⟩ none true "r9bb" 1
        []).finalState.events "r9bb" = none := by
  have h1 := send_failure_modes ⟨true, false, [], []⟩ none true "r9bb" 0 []
    (by intro h; exact rfl)
  have h2 := send_failure_modes ⟨true, true, [], []⟩ none true "r9bb" 1 []
    (by intro h; exact rfl)
  have h3 := h2.2.2 rfl (by decide)
  exact ⟨h1.1.mpr rfl, h3.1, h3.2.1⟩

/-- C9 — Caller payload mutated: a waiting `send_command` that is handed a
payload dict inserts the fresh `req_id` key into that very dict before
publishing; after the call returns, the caller's dict still holds the
`req_id` key, and every other key is unchanged. -/
theorem caller_payload_mutated (st : CState)
    (p0 : List (String × JVal)) (reqId : String) (replies : List JVal)
    (hcli : st.hasClient = true) (hcon : st.connected = true) :
    (send_command st (some p0) true reqId 0 replies).raised = false
  ∧ (send_command st (some p0) true reqId 0 replies).payloadOf
      = insertA p0 "req_id" (JVal.str reqId)
  ∧ lookupA (send_command st (some p0) true reqId 0 replies).payloadOf
      "req_id" = some (JVal.str reqId)
  ∧ (∀ k, k ≠ "req_id" →
      lookupA (send_command st (some p0) true reqId 0 replies).payloadOf k
        = lookupA p0 k) := by
  rw [send_command_eq_ok st (some p0) reqId replies hcli hcon]
  refine ⟨rfl, rfl, ?_, ?_⟩
  · simp [SendResult.payloadOf]
  · intro k hk
    simpa [SendResult.payloadOf] using lookupA_insertA_ne p0 _ k _ hk

/-- Witness for C9 at a concrete payload `{"a": 1}`. -/
theorem caller_payload_mutated_witness :
    lookupA (send_command ⟨true, true, [], []⟩
        (some [("a", JVal.num 1)]) true "r7cc" 0 []).payloadOf "req_id"
      = some (JVal.str "r7cc")
  ∧ lookupA (send_command ⟨true, true, [], []⟩
        (some [("a", JVal.num 1)]) true "r7cc" 0 []).payloadOf "a"
      = some (JVal.num 1) := by
  have h := caller_payload_mutated ⟨true, true, [], []⟩ [("a", JVal.num 1)]
    "r7cc" [] rfl rfl
  refine ⟨h.2.2.1, ?_⟩
  rw [h.2.2.2 "a" (by decide)]
  rfl

/-- The append-and-trim step keeps exactly the last `maxTrailPoints`
elements of the extended trail. -/
theorem trailAppend_eq_rtake (t : List TrailPoint) (p : TrailPoint) :
    trailAppend t p = List.rtake (t ++ [p]) maxTrailPoints := by
  show (if (t ++ [p]).length > maxTrailPoints
      then List.drop ((t ++ [p]).length - maxTrailPoints) (t ++ [p])
      else t ++ [p])
    = List.rtake (t ++ [p]) maxTrailPoints
  by_cases h : (t ++ [p]).length > maxTrailPoints
  · rw [if_pos h]
    rfl
  · rw [if_neg h]
    unfold List.rtake
    rw [Nat.sub_eq_zero_of_le (Nat.le_of_not_lt h), List.drop_zero]

theorem length_rtake {α : Type} (l : List α) (n : Nat) :
    (List.rtake l n).length = min n l.length := by
  simp only [List.rtake, List.length_drop]
  omega

theorem rtake_append_rtake {α : Type} (l r : List α) (n : Nat) :
    List.rtake (List.rtake l n ++ r) n = List.rtake (l ++ r) n := by
  simp only [List.rtake_eq_reverse_take_reverse, List.reverse_append,
    List.reverse_reverse]
  rw [List.take_append_eq_append_take, List.take_take,
    List.take_append_eq_append_take]
  have hm : min (n - r.reverse.length) n = n - r.reverse.length := by omega
  rw [hm]

/-- Folding the active-trail append over a sample list, starting from any
trail already within the bound, yields the last `maxTrailPoints` samples
of the concatenation. -/
theorem foldl_trailAppend_eq_rtake (samples : List TrailPoint)
    (init : List TrailPoint) (hinit : init.length ≤ maxTrailPoints) :
    List.foldl trailAppend init samples
      = List.rtake (init ++ samples) maxTrailPoints := by
  induction samples generalizing init with
  | nil =>
      simp only [List.foldl_nil, List.append_nil, List.rtake,
        Nat.sub_eq_zero_of_le hinit, List.drop_zero]
  | cons s rest ih =>
      simp only [List.foldl_cons]
      rw [ih (trailAppend init s)
        (by rw [trailAppend_eq_rtake, length_rtake]; omega)]
      rw [trailAppend_eq_rtake, rtake_append_rtake]
      simp

/-- While a plan is active, processing a `get_device_msg` carrying a
position sample is exactly the append-and-trim step. -/
theorem handleDeviceMsgTrail_active_append (t : List TrailPoint)
    (p : TrailPoint) :
    handleDeviceMsgTrail ⟨true, t⟩ true (some p)
      = ⟨true, trailAppend t p⟩ := by
  simp [handleDeviceMsgTrail]

theorem foldl_handleDeviceMsgTrail_active (samples : List TrailPoint)
    (t : List TrailPoint) :
    List.foldl (fun st p => handleDeviceMsgTrail st true (some p))
        ⟨true, t⟩ samples
      = ⟨true, List.foldl trailAppend t samples⟩ := by
  induction samples generalizing t with
  | nil => rfl
  | cons s rest ih =>
      simp only [List.foldl_cons, handleDeviceMsgTrail_active_append]
      exact ih (trailAppend t s)

/-- C5 — Trail bounding: appending `N > 2000` position samples while the
trail is active (it starts cleared when activated) leaves a trail of
length exactly 2000 holding the most recent 2000 samples in arrival
order, the oldest dropped from the front. -/
theorem trail_bounded (samples : List TrailPoint)
    (h : samples.length > maxTrailPoints) :
    (List.foldl (fun st p => handleDeviceMsgTrail st true (some p))
        ⟨true, []⟩ samples).trail.length = maxTrailPoints
  ∧ (List.foldl (fun st p => handleDeviceMsgTrail st true (some p))
        ⟨true, []⟩ samples).trail
      = samples.drop (samples.length - maxTrailPoints)
  ∧ (List.foldl (fun st p => handleDeviceMsgTrail st true (some p))
        ⟨true, []⟩ samples).active = true := by
  rw [foldl_handleDeviceMsgTrail_active,
    foldl_trailAppend_eq_rtake samples [] (by simp [maxTrailPoints])]
  refine ⟨?_, ?_, rfl⟩
  · simp only [List.nil_append, length_rtake]
    omega
  · simp [List.rtake]

/-- Witness for C5: 2001 appends leave exactly 2000 points. -/
theorem trail_bounded_witness :
    (List.foldl (fun st p => handleDeviceMsgTrail st true (some p))
        ⟨true, []⟩ (List.replicate 2001 ⟨0, 0, 0⟩)).trail.length
      = maxTrailPoints :=
  (trail_bounded (List.replicate 2001 ⟨0, 0, 0⟩)
    (by rw [List.length_replicate]; norm_num [maxTrailPoints])).1

/-- C6 — Trail lifecycle on job transitions: a false→true flip of the
job-active flag clears the trail and activates it (the same message's own
position sample, when present, is then the sole entry); a true→false flip
deactivates it retaining every accumulated point; a device message with
the flag still false leaves an inactive trail completely untouched; and
the explicit clear-trail operation is what empties the retained trail. -/
theorem trail_lifecycle (st : TrailState) (odom : Option TrailPoint) :
    (st.active = false →
        (handleDeviceMsgTrail st true odom).active = true
      ∧ (handleDeviceMsgTrail st true odom).trail
          = (match odom with | some p => [p] | none => []))
  ∧ (st.active = true →
        handleDeviceMsgTrail st false odom = ⟨false, st.trail⟩)
  ∧ (st.active = false → handleDeviceMsgTrail st false odom = st)
  ∧ (clear_trail st).trail = [] ∧ (clear_trail st).active = st.active := by
  obtain ⟨a, tr⟩ := st
  cases a
  · refine ⟨fun _ => ?_, fun h => by simp at h, fun _ => rfl, rfl, rfl⟩
    cases odom
    · exact ⟨rfl, rfl⟩
    · exact ⟨rfl, rfl⟩
  · exact ⟨fun h => by simp at h, fun _ => rfl, fun h => by simp at h,
      rfl, rfl⟩

/-- Witness for C6: a 5-point trail survives deactivation exactly, stays
untouched across a further inactive message, and only `clear_trail`
empties it. -/
theorem trail_lifecycle_witness :
    handleDeviceMsgTrail
        ⟨true, [⟨1, 1, 1⟩, ⟨2, 2, 2⟩, ⟨3, 3, 3⟩, ⟨4, 4, 4⟩, ⟨5, 5, 5⟩]⟩
        false none
      = ⟨false, [⟨1, 1, 1⟩, ⟨2, 2, 2⟩, ⟨3, 3, 3⟩, ⟨4, 4, 4⟩, ⟨5, 5, 5⟩]⟩
  ∧ handleDeviceMsgTrail
        ⟨false, [⟨1, 1, 1⟩, ⟨2, 2, 2⟩, ⟨3, 3, 3⟩, ⟨4, 4, 4⟩, ⟨5, 5, 5⟩]⟩
        false (some ⟨6, 6, 6⟩)
      = ⟨false, [⟨1, 1, 1⟩, ⟨2, 2, 2⟩, ⟨3, 3, 3⟩, ⟨4, 4, 4⟩, ⟨5, 5, 5⟩]⟩
  ∧ (clear_trail
        ⟨false, [⟨1, 1, 1⟩, ⟨2, 2, 2⟩, ⟨3, 3, 3⟩, ⟨4, 4, 4⟩, ⟨5, 5, 5⟩]⟩).trail
      = [] := by
  refine ⟨?_, ?_, ?_⟩
  · exact (trail_lifecycle
      ⟨true, [⟨1, 1, 1⟩, ⟨2, 2, 2⟩, ⟨3, 3, 3⟩, ⟨4, 4, 4⟩, ⟨5, 5, 5⟩]⟩
      none).2.1 rfl
  · exact (trail_lifecycle
      ⟨false, [⟨1, 1, 1⟩, ⟨2, 2, 2⟩, ⟨3, 3, 3⟩, ⟨4, 4, 4⟩, ⟨5, 5, 5⟩]⟩
      (some ⟨6, 6, 6⟩)).2.2.1 rfl
  · exact (trail_lifecycle
      ⟨false, [⟨1, 1, 1⟩, ⟨2, 2, 2⟩, ⟨3, 3, 3⟩, ⟨4, 4, 4⟩, ⟨5, 5, 5⟩]⟩
      none).2.2.2.1

/-- C7 — Discovery priority and persistence: a present configured address
whose probe succeeds is persisted and returned, the subnet scan never
runs and the cached address is never consulted; conversely the cached
address or the scan are consulted only when the configured address is
absent or its probe fails. -/
theorem discovery_priority (probe : String → Bool)
    (scanOf : String → Option String) (configured : String)
    (cached : Option String) (subnet? : Option String) :
    (configured ≠ "" → probe configured = true →
        (discover_robot probe scanOf configured cached subnet?).result
          = some configured
      ∧ configured ∈
          (discover_robot probe scanOf configured cached subnet?).saved
      ∧ (discover_robot probe scanOf configured cached subnet?).scanInvoked
          = false
      ∧ (discover_robot probe scanOf configured cached subnet?).cachedProbed
          = false)
  ∧ ((discover_robot probe scanOf configured cached subnet?).cachedProbed
          = true
      ∨ (discover_robot probe scanOf configured cached subnet?).scanInvoked
          = true →
      configured = "" ∨ probe configured = false) := by
  constructor
  · intro h1 h2
    simp [discover_robot, h1, h2]
  · intro hor
    by_contra hneg
    push_neg at hneg
    obtain ⟨hne, hpr⟩ := hneg
    have hpr' : probe configured = true := by
      cases hp : probe configured
      · exact absurd hp hpr
      · rfl
    rcases hor with h | h <;> simp [discover_robot, hne, hpr'] at h

/-- Witness for C7: a responsive configured address wins without any scan. -/
theorem discovery_priority_witness :
    (discover_robot (fun ip => ip = "10.0.0.5") (fun _ => some "10.0.0.9")
        "10.0.0.5" (some "10.0.0.7") (some "10.0.0.0/24")).result
      = some "10.0.0.5"
  ∧ (discover_robot (fun ip => ip = "10.0.0.5") (fun _ => some "10.0.0.9")
        "10.0.0.5" (some "10.0.0.7") (some "10.0.0.0/24")).scanInvoked
      = false := by
  have h := (discovery_priority (fun ip => ip = "10.0.0.5")
    (fun _ => some "10.0.0.9") "10.0.0.5" (some "10.0.0.7")
    (some "10.0.0.0/24")).1 (by decide) (by decide)
  exact ⟨h.1, h.2.2.1⟩

/-- C8 — Rediscovery thresholds: starting connected with the counter at
zero, three consecutive disconnects invoke rediscovery exactly once and
leave the counter at 3; in general a disconnect invokes rediscovery
exactly when the incremented counter equals 3 or is a multiple of 10;
a successful connect (reason code 0) resets the counter to zero. -/
theorem rediscovery_thresholds :
    runDisconnects ⟨0, true⟩ 3 = (⟨3, false⟩, 1)
  ∧ (∀ st : ReconnState, (on_disconnect st).2 = true
      ↔ (st.disconnectCount + 1 = 3 ∨ (st.disconnectCount + 1) % 10 = 0))
  ∧ (∀ st : ReconnState, on_connect st 0 = ⟨0, true⟩) := by
  refine ⟨by decide, ?_, fun st => rfl⟩
  intro st
  unfold on_disconnect
  by_cases h1 : st.disconnectCount + 1 ≤ 1
  · have h0 : st.disconnectCount = 0 := by omega
    simp [h1, h0]
  · by_cases h2 : st.disconnectCount + 1 = 3
    · simp [h1, h2]
    · by_cases h3 : (st.disconnectCount + 1) % 10 = 0
      · simp [h1, h2, h3]
      · simp [h1, h2, h3]

/-- Witness for C8: the tenth consecutive disconnect (a multiple of 10)
invokes rediscovery again. -/
theorem rediscovery_thresholds_witness :
    (on_disconnect ⟨9, false⟩).2 = true :=
  (rediscovery_thresholds.2.1 ⟨9, false⟩).mpr (Or.inr rfl)

/-- C10 — Divergent activity-name maps: the heartbeat path maps
working-state codes through {0 standby, 1 idle, 2 working, 3 charging,
4 docking, 5 error, 6 returning, 7 paused} while the `runningStatus`
path maps through {0 idle, 1 working, 2 paused, 3 charging, 4 error,
5 docking, 6 returning}; code 2 names "working" versus "paused", and for
every code in {1, 2, 4, 5} the two paths disagree. -/
theorem divergent_activity_maps :
    heartbeat_state_map 2 = "working"
  ∧ decode_state 2 = "paused"
  ∧ (List.range 8).map heartbeat_state_map
      = ["standby", "idle", "working", "charging", "docking", "error",
         "returning", "paused"]
  ∧ (List.range 7).map decode_state
      = ["idle", "working", "paused", "charging", "error", "docking",
         "returning"]
  ∧ ∀ c ∈ ([1, 2, 4, 5] : List Nat),
      heartbeat_state_map c ≠ decode_state c := by
  exact ⟨rfl, rfl, rfl, rfl, by decide⟩

end YarboBridge
